import Mathlib

/-!
Verification of the Robo-DeFi-Advisor pool evaluation & decision engine.

The development shallowly embeds the Python sources:
  * `agents/discovery_agent/discovery_logic.py`  (candidate filter),
  * `agents/risk_agent/agent.py`                 (risk scoring / banding),
  * `agents/decision_agent/decision_logic.py`    (decision engine),
as executable Lean definitions over `ℚ` (Python floats are modelled as exact
rationals; the only transcendental operation, `tvl ** 0.1`, is abstracted as
an explicit function parameter `pw`), and proves the specified properties.

Python dictionaries that accumulate fields stage by stage are modelled as
structures whose optional fields mirror keys that may be absent; a
`pool.get(key, default)` access is modelled as `Option.getD`.
-/

/-- Rounding to two decimal places, modelling Python's round(x, 2).
(The exact tie-breaking discipline of binary-float rounding is immaterial
here: both the code model and the spec model use this same function.) -/
def roundTo2 (x : ℚ) : ℚ := (round (x * 100) : ℤ) / 100

/-- Does the list start with the given needle? (elementwise equality). -/
def listStartsWith {α : Type} [DecidableEq α] : List α → List α → Bool
  | [], _ => true
  | _ :: _, [] => false
  | a :: as, b :: bs => a = b && listStartsWith as bs

/-- Contiguous-sublist test, modelling the Python substring operator
(needle in haystack); the empty needle is contained in everything. -/
def listContainsSub {α : Type} [DecidableEq α] (needle : List α) : List α → Bool
  | [] => needle.isEmpty
  | a :: t => listStartsWith needle (a :: t) || listContainsSub needle t

/-- String containment: (needle in hay) in Python. -/
def strContains (hay needle : String) : Bool := listContainsSub needle.data hay.data

/-- User criteria, modelling the criteria dict.  Absent keys are None. -/
structure Criteria where
  min_tvl : Option ℚ := none
  min_apy : Option ℚ := none
  max_apy : Option ℚ := none
  preference : Option String := none
  top_n : Option ℕ := none
deriving DecidableEq

namespace DiscoveryLogic

/-- Pool record produced by the discovery agent (dataclass Pool in
discovery_logic.py).  tvl and apy are declared float but are None-checked
by the filter, hence Option.  (The poolMeta / token-list / last_updated
metadata fields are never read by filtering and are omitted.) -/
structure Pool where
  id : String
  protocol : String
  chain : String := ""
  tvl : Option ℚ := none
  apy : Option ℚ := none
  symbol : String := ""
  project : String := ""
  url : Option String := none
deriving DecidableEq

/-- The fixed trusted-protocol allow-list from filter_pools_by_criteria. -/
def TRUSTED_PROTOCOLS : List String :=
  ["uniswap", "uniswap-v2", "uniswap-v3",
   "compound", "compound-v2", "compound-v3",
   "aave", "aave-v2", "aave-v3",
   "venus",
   "curve", "curve-dex",
   "pendle",
   "pancakeswap", "pancake",
   "balancer", "balancer-v2"]

/-- One iteration of the filter loop in
DiscoveryLogic.filter_pools_by_criteria: each early `continue` is a
`false` branch, reaching `filtered.append(p)` is `true`. -/
def passesFilter (criteria : Criteria) (p : Pool) : Bool :=
  match p.tvl, p.apy with
  | none, _ => false
  | _, none => false
  | some tvl, some apy =>
    let protocol_lower := p.protocol.toLower
    let is_trusted := TRUSTED_PROTOCOLS.any (fun t => strContains protocol_lower t)
    if !is_trusted then false
    else if tvl < criteria.min_tvl.getD 0 ∨ apy < criteria.min_apy.getD 0 then false
    else if (match criteria.max_apy with | some m => decide (apy > m) | none => false) then false
    else if criteria.preference.getD "medium" = "safest" ∧ tvl < 10000000 then false
    else true

/-- DiscoveryLogic.filter_pools_by_criteria: the append-unless-continue
loop over the input pools. -/
def filter_pools_by_criteria (pools : List Pool) (criteria : Criteria) : List Pool :=
  pools.filter (passesFilter criteria)

/-- Spec-side qualification predicate, written from the words of the
candidate-filter claim: protocol contains (case-insensitively) a trusted
name, tvl ≥ min_tvl and apy ≥ min_apy (defaults 0), apy ≤ max_apy when
given, tvl ≥ 10,000,000 when preference is safest, and pools with missing
tvl or apy are rejected. -/
def qualifiesSpec (criteria : Criteria) (p : Pool) : Bool :=
  p.tvl.isSome && p.apy.isSome &&
  TRUSTED_PROTOCOLS.any (fun t => strContains p.protocol.toLower t) &&
  decide (p.tvl.getD 0 ≥ criteria.min_tvl.getD 0) &&
  decide (p.apy.getD 0 ≥ criteria.min_apy.getD 0) &&
  (match criteria.max_apy with | some m => decide (p.apy.getD 0 ≤ m) | none => true) &&
  (if criteria.preference.getD "medium" = "safest"
   then decide (p.tvl.getD 0 ≥ (10000000 : ℚ)) else true)

end DiscoveryLogic

namespace DecisionAgent

/-- Factors sub-dict of a risk assessment as read by the decision agent
(contract verification and audit link are informational only). -/
structure RFactors where
  contractVerified : Option Bool := none
  auditLink : Option String := none
deriving DecidableEq

/-- One risk-analysis entry (also the value stored under the riskData
key).  The neutral default substituted by apply_risk_analysis carries no
poolId key, hence Option. -/
structure RiskData where
  poolId : Option String := none
  riskScore : ℚ
  riskLevel : String
  factors : RFactors := {}
  recommendations : List String := []
deriving DecidableEq

/-- The scoreFactors dict attached by score_pools. -/
structure ScoreFactors where
  apyScore : ℚ
  riskScore : ℚ
  liquidityScore : ℚ
  protocolBonus : ℚ
deriving DecidableEq

/-- A pool dict as it flows through the decision engine.  id, protocol,
apy and tvl are always present (every producer in the repository sets
them); riskScore / riskLevel are top-level keys set only by the uAgents
wrapper; riskData, scoreFactors, totalScore and ranking are attached by
the engine stages (totalScore and ranking carry the same default the
code's .get fallbacks use). -/
structure DPool where
  id : String
  protocol : String := "Unknown"
  chain : String := "Unknown"
  tvl : ℚ := 0
  apy : ℚ := 0
  symbol : String := "Unknown"
  project : String := "Unknown"
  url : Option String := none
  riskScore : Option ℚ := none
  riskLevel : Option String := none
  riskData : Option RiskData := none
  totalScore : ℚ := 0
  scoreFactors : Option ScoreFactors := none
  ranking : ℕ := 0
deriving DecidableEq

/-- DecisionAgent.filter_pools_by_criteria: the loop unconditionally
appends every pool ("Temporarily include all pools"), only printing
debugging output. -/
def filter_pools_by_criteria (pools : List DPool) (_criteria : Criteria) : List DPool :=
  pools.foldl (fun filtered pool => filtered ++ [pool]) []

/-- The neutral default risk assessment substituted by
apply_risk_analysis when risk_map has no entry for a pool id (the
literal dict in the Python code; it carries no poolId key). -/
def defaultRiskData : RiskData :=
  { riskScore := 50, riskLevel := "medium", factors := {}, recommendations := [] }

/-- risk_map lookup: the dict comprehension keys risk entries by poolId
with later entries overwriting earlier ones, so .get returns the LAST
entry whose poolId matches, or the neutral default. -/
def riskFor (risk_analysis : List RiskData) (id : String) : RiskData :=
  ((risk_analysis.reverse).find? fun r => decide (r.poolId = some id)).getD defaultRiskData

/-- DecisionAgent.apply_risk_analysis: attach a riskData entry to every
pool (the matching analysis entry, or the neutral default). -/
def apply_risk_analysis (pools : List DPool) (risk_analysis : List RiskData) : List DPool :=
  pools.map fun pool => { pool with riskData := some (riskFor risk_analysis pool.id) }

/-- pool.get("riskData", \x7b\x7d).get("riskLevel", "medium"): the risk
level the engine reads off a pool dict (both in apply_safety_filters and
in score_pools). -/
def riskLevelOf (pool : DPool) : String :=
  (pool.riskData.map RiskData.riskLevel).getD "medium"

/-- DecisionAgent.apply_safety_filters: early return unless the
preference is safest; otherwise the loop skips (continue) any pool whose
risk level is very_high and appends the rest.  The contract-verification
and audit filters are commented out in the source and hence absent. -/
def apply_safety_filters (pools : List DPool) (criteria : Criteria) : List DPool :=
  if criteria.preference.getD "medium" ≠ "safest" then pools
  else
    pools.foldl
      (fun filtered_pools pool =>
        if riskLevelOf pool = "very_high" then filtered_pools
        else filtered_pools ++ [pool]) []

/-- Mapping of a risk level string to the numeric risk used by
score_pools (the inline dict .get(risk_level, 50)). -/
def riskLevelNumeric (risk_level : String) : ℚ :=
  if risk_level = "very_low" then 10
  else if risk_level = "low" then 30
  else if risk_level = "medium" then 50
  else if risk_level = "high" then 70
  else if risk_level = "very_high" then 90
  else 50

/-- The per-pool body of DecisionAgent.score_pools.  pw models the
Python float power tvl ** 0.1 (the one operation with no exact rational
counterpart); all other arithmetic is exact. -/
def score_pool (pw : ℚ → ℚ) (criteria : Criteria) (pool : DPool) : DPool :=
  let apy := pool.apy
  let apy_score : ℚ := if apy ≤ 0 then 0 else min 40 (apy * 2)
  let risk_level := riskLevelOf pool
  let risk_numeric := riskLevelNumeric risk_level
  let risk_score : ℚ := max 0 (30 - risk_numeric * (0.3 : ℚ))
  let tvl := pool.tvl
  let liquidity_score : ℚ := if tvl ≤ 0 then 0 else min 20 (pw tvl / 2)
  let protocol_bonus : ℚ := if pool.protocol = "Uniswap V3" then 10 else 5
  let total := apy_score + risk_score + liquidity_score + protocol_bonus
  let preference := criteria.preference.getD "medium"
  let total :=
    if preference = "safest" then
      if risk_level = "very_low" then total + 50
      else if risk_level = "low" then total + 25
      else if risk_level = "very_high" then total - 40
      else if risk_level = "high" then total - 20
      else total
    else if preference = "highest_yield" then
      total * (1.2 : ℚ) + (if apy > 15 then (20 : ℚ) else 0)
    else total
  { pool with
      totalScore := roundTo2 total,
      scoreFactors := some ⟨apy_score, risk_score, liquidity_score, protocol_bonus⟩ }

/-- The sort key of scored_pools.sort(key=..., reverse=True): a comes
before b when its totalScore is at least b's. -/
def sortLe (a b : DPool) : Bool := decide (b.totalScore ≤ a.totalScore)

/-- Python's list.sort is stable; modelled by the (stable) mergeSort. -/
def sort_scored (l : List DPool) : List DPool := l.mergeSort sortLe

/-- The enumerate loop assigning pool["ranking"] = i + 1. -/
def assign_rankings (l : List DPool) : List DPool :=
  l.enum.map fun ip => { ip.2 with ranking := ip.1 + 1 }

/-- The sort-then-rank tail of DecisionAgent.score_pools. -/
def rank_scored (l : List DPool) : List DPool := assign_rankings (sort_scored l)

/-- DecisionAgent.score_pools: score every pool, sort by descending
totalScore (stable), assign 1-based rankings. -/
def score_pools (pw : ℚ → ℚ) (pools : List DPool) (criteria : Criteria) : List DPool :=
  rank_scored (pools.map (score_pool pw criteria))

/-- DecisionAgent.select_optimal_pool_from_scored: first ranked pool, or
the ValueError raised on an empty candidate list. -/
def select_optimal_pool_from_scored (scored_pools : List DPool) : Except String DPool :=
  match scored_pools with
  | [] => Except.error "No pools available for selection"
  | p :: _ => Except.ok p

end DecisionAgent

/-- JSON-like values, modelling the nested dicts stored in reasoning
steps and responses. -/
inductive JVal where
  | s (v : String)
  | q (v : ℚ)
  | n (v : ℕ)
  | arr (vs : List JVal)
  | obj (fields : List (String × JVal))

/-- One entry of the reasoning trace. -/
structure ReasoningStep where
  step : ℕ
  agent : String
  action : String
  input : JVal
  output : JVal
  reasoning : String
  timestamp : String

/-- list(user_criteria.keys()) for the criteria dict (present keys, in
the fixed field order of the dict literal). -/
def Criteria.keysOf (c : Criteria) : List String :=
  (if c.min_tvl.isSome then ["min_tvl"] else []) ++
  (if c.min_apy.isSome then ["min_apy"] else []) ++
  (if c.max_apy.isSome then ["max_apy"] else []) ++
  (if c.preference.isSome then ["preference"] else []) ++
  (if c.top_n.isSome then ["top_n"] else [])

/-- The criteria dict embedded as a JSON value. -/
def Criteria.toJ (c : Criteria) : JVal :=
  JVal.obj
    ((c.min_tvl.map (fun v => ("min_tvl", JVal.q v))).toList ++
     (c.min_apy.map (fun v => ("min_apy", JVal.q v))).toList ++
     (c.max_apy.map (fun v => ("max_apy", JVal.q v))).toList ++
     (c.preference.map (fun v => ("preference", JVal.s v))).toList ++
     (c.top_n.map (fun v => ("top_n", JVal.n v))).toList)

namespace DecisionAgent

/-- list(optimal_pool.get("scoreFactors", \x7b\x7d).keys()): the four
factor names when scoreFactors is present, empty otherwise (dict keys in
insertion order of score_pools). -/
def scoreFactorKeys (pool : DPool) : List JVal :=
  if pool.scoreFactors.isSome then
    [JVal.s "apyScore", JVal.s "riskScore", JVal.s "liquidityScore", JVal.s "protocolBonus"]
  else []

/-- DecisionAgent.generate_reasoning_trace.  fmtNum models Python str()
interpolation of a float, fmtUsd the comma-grouped  :,.0f  format, and
ts the successive datetime.now().isoformat() readings (one per step). -/
def generate_reasoning_trace (fmtNum fmtUsd : ℚ → String) (ts : ℕ → String)
    (user_criteria : Criteria) (all_pools : List DPool) (optimal_pool : DPool) :
    List ReasoningStep :=
  [{ step := 1, agent := "DecisionAgent", action := "filter_pools",
     input := JVal.obj
       [("totalPools", JVal.n all_pools.length), ("criteria", user_criteria.toJ)],
     output := JVal.obj
       [("filteredPools", JVal.n all_pools.length),
        ("filtersApplied", JVal.arr (user_criteria.keysOf.map JVal.s))],
     reasoning :=
       "Filtered pools based on criteria: " ++ String.intercalate ", " user_criteria.keysOf,
     timestamp := ts 0 },
   { step := 2, agent := "DecisionAgent", action := "score_pools",
     input := JVal.obj [("poolsToScore", JVal.n all_pools.length)],
     output := JVal.obj
       [("scoringFactors", JVal.arr (scoreFactorKeys optimal_pool)),
        ("topScores", JVal.arr ((all_pools.take 3).map fun p =>
          JVal.obj [("id", JVal.s p.id), ("score", JVal.q p.totalScore)]))],
     reasoning :=
       "Scored pools using APY (40%), Risk (30%), Liquidity (20%), and Protocol (10%) weights",
     timestamp := ts 1 },
   { step := 3, agent := "DecisionAgent", action := "select_optimal",
     input := JVal.obj [("candidatePools", JVal.n all_pools.length)],
     output := JVal.obj
       [("selectedPool", JVal.obj
         [("id", JVal.s optimal_pool.id),
          ("protocol", JVal.s optimal_pool.protocol),
          ("score", JVal.q optimal_pool.totalScore),
          ("apy", JVal.q optimal_pool.apy),
          ("riskScore", JVal.q (optimal_pool.riskScore.getD 50))])],
     reasoning :=
       "Selected " ++ optimal_pool.id ++ " with highest composite score (" ++
         fmtNum optimal_pool.totalScore ++ ")",
     timestamp := ts 2 },
   { step := 4, agent := "DecisionAgent", action := "justify_selection",
     input := JVal.obj [("selectedPool", JVal.s optimal_pool.id)],
     output := JVal.obj
       [("justification", JVal.obj
         [("apyAdvantage", JVal.q optimal_pool.apy),
          ("riskAssessment", JVal.s (optimal_pool.riskLevel.getD "medium")),
          ("liquidityStrength", JVal.q optimal_pool.tvl),
          ("protocolReliability", JVal.s optimal_pool.protocol)])],
     reasoning :=
       "Pool selected due to " ++ fmtNum optimal_pool.apy ++ "% APY, " ++
         optimal_pool.riskLevel.getD "medium" ++ " risk, and strong liquidity of $" ++
         fmtUsd optimal_pool.tvl,
     timestamp := ts 3 }]

/-- The response dict of DecisionAgent.select_optimal_pool.  Keys that
appear only in one of the two branches (allCandidates, criteria, error)
are Option. -/
structure Response where
  success : Bool
  error : Option String := none
  optimalPool : Option DPool := none
  allCandidates : Option (List DPool) := none
  reasoningTrace : List ReasoningStep := []
  criteria : Option Criteria := none
  timestamp : String

/-- DecisionAgent.select_optimal_pool: the engine entry point.  The body
runs the five stages; any raised error (Except) is caught by the
top-level except-clause and converted into the structured failure
response.  now models the datetime.now() of the response. -/
def select_optimal_pool (pw : ℚ → ℚ) (fmtNum fmtUsd : ℚ → String) (ts : ℕ → String)
    (now : String) (user_criteria : Criteria) (pools : List DPool)
    (risk_analysis : List RiskData) : Response :=
  match (do
    let filtered_pools := filter_pools_by_criteria pools user_criteria
    let pools_with_risk := apply_risk_analysis filtered_pools risk_analysis
    let pools_safe := apply_safety_filters pools_with_risk user_criteria
    let scored_pools := score_pools pw pools_safe user_criteria
    let optimal_pool ← select_optimal_pool_from_scored scored_pools
    let reasoning_trace :=
      generate_reasoning_trace fmtNum fmtUsd ts user_criteria scored_pools optimal_pool
    Except.ok
      { success := true,
        optimalPool := some optimal_pool,
        allCandidates := some scored_pools,
        reasoningTrace := reasoning_trace,
        criteria := some user_criteria,
        timestamp := now } : Except String Response) with
  | Except.ok r => r
  | Except.error e =>
      { success := false, error := some e, optimalPool := none,
        reasoningTrace := [], timestamp := now }

end DecisionAgent

namespace RiskAgent

/-- The poolMetrics dict read by calculate_risk_score (each key via .get
with default). -/
structure PoolMetrics where
  tvl : ℚ := 0
  apy : ℚ := 0
  protocol : String := ""
deriving DecidableEq

/-- The factors dict assembled by analyze_pool.  Only exploitHistory and
poolMetrics are read by calculate_risk_score; the rest feed reasoning /
recommendations. -/
structure RiskFactors where
  contractVerification : Option Bool := none
  auditStatus : Option String := none
  holderConcentration : Option ℚ := none
  liquidityScore : Option ℚ := none
  exploitHistory : Option String := none
  poolMetrics : PoolMetrics := {}
deriving DecidableEq

def trusted_tier1 : List String := ["uniswap", "aave", "compound", "curve"]

def trusted_tier2 : List String := ["balancer", "pendle", "venus", "pancakeswap"]

/-- calculate_risk_score: the additive 0-100 safety score (higher is
safer), mirroring the four score += blocks and the final round(·, 2). -/
def calculate_risk_score (factors : RiskFactors) : ℚ :=
  let tvl := factors.poolMetrics.tvl
  let apy := factors.poolMetrics.apy
  let protocol := factors.poolMetrics.protocol.toLower
  let score : ℚ := 0
  let score := score +
    (if tvl > 100000000 then (30 : ℚ)
     else if tvl > 50000000 then 25
     else if tvl > 10000000 then 20
     else if tvl > 5000000 then 15
     else if tvl > 1000000 then 10
     else if tvl > 100000 then 5
     else 0)
  let score := score +
    (if trusted_tier1.any (fun t1 => strContains protocol t1) then (35 : ℚ)
     else if trusted_tier2.any (fun t2 => strContains protocol t2) then 25
     else 10)
  let score := score +
    (if apy < 5 then (20 : ℚ)
     else if apy < 10 then 15
     else if apy < 20 then 10
     else if apy < 50 then 5
     else 0)
  let score := score + (if factors.exploitHistory = none then (15 : ℚ) else 0)
  roundTo2 score

/-- get_risk_level: discrete banding of the 0-100 score. -/
def get_risk_level (score : ℚ) : String :=
  if score ≥ 80 then "very_low"
  else if score ≥ 60 then "low"
  else if score ≥ 40 then "medium"
  else if score ≥ 20 then "high"
  else "very_high"

/-- Spec-side TVL band, from the words of the risk-annotator claim. -/
def tvlBandSpec (tvl : ℚ) : ℚ :=
  if tvl > 100000000 then 30
  else if tvl > 50000000 then 25
  else if tvl > 10000000 then 20
  else if tvl > 5000000 then 15
  else if tvl > 1000000 then 10
  else if tvl > 100000 then 5
  else 0

/-- Spec-side protocol reputation band: 35 when the lowercased protocol
contains a tier-1 name, 25 for tier-2, else 10. -/
def protocolReputationSpec (protocol : String) : ℚ :=
  if trusted_tier1.any (fun t => strContains protocol.toLower t) then 35
  else if trusted_tier2.any (fun t => strContains protocol.toLower t) then 25
  else 10

/-- Spec-side APY sustainability band: 20/15/10/5 for apy below
5/10/20/50, else 0. -/
def apySustainabilitySpec (apy : ℚ) : ℚ :=
  if apy < 5 then 20
  else if apy < 10 then 15
  else if apy < 20 then 10
  else if apy < 50 then 5
  else 0

/-- Spec-side exploit-history band: 15 when no exploit is known. -/
def exploitAbsenceSpec (exploitHistory : Option String) : ℚ :=
  if exploitHistory = none then 15 else 0

/-- Spec-side risk banding from the claim. -/
def riskLevelBandSpec (score : ℚ) : String :=
  if score ≥ 80 then "very_low"
  else if score ≥ 60 then "low"
  else if score ≥ 40 then "medium"
  else if score ≥ 20 then "high"
  else "very_high"

end RiskAgent

namespace ScorerSpec

/-- Spec-side apyScore, from the words of the composite-scorer claim. -/
def apyScoreSpec (apy : ℚ) : ℚ := if apy ≤ 0 then 0 else min 40 (2 * apy)

/-- Spec-side risk-level-to-numeric table (50 for an unrecognised
level). -/
def riskNumericSpec (risk_level : String) : ℚ :=
  if risk_level = "very_low" then 10
  else if risk_level = "low" then 30
  else if risk_level = "medium" then 50
  else if risk_level = "high" then 70
  else if risk_level = "very_high" then 90
  else 50

/-- Spec-side riskScore = max(0, 30 - 0.3 * n). -/
def riskScoreSpec (risk_level : String) : ℚ :=
  max 0 (30 - (0.3 : ℚ) * riskNumericSpec risk_level)

/-- Spec-side liquidityScore = tvl>0 ? min(20, tvl^0.1 / 2) : 0, with
the tenth-root abstracted as pw. -/
def liquidityScoreSpec (pw : ℚ → ℚ) (tvl : ℚ) : ℚ :=
  if tvl ≤ 0 then 0 else min 20 (pw tvl / 2)

/-- Spec-side protocolBonus. -/
def protocolBonusSpec (protocol : String) : ℚ :=
  if protocol = "Uniswap V3" then 10 else 5

/-- Spec-side base sum of the four factors. -/
def baseSpec (pw : ℚ → ℚ) (risk_level : String) (apy tvl : ℚ) (protocol : String) : ℚ :=
  apyScoreSpec apy + riskScoreSpec risk_level + liquidityScoreSpec pw tvl +
    protocolBonusSpec protocol

/-- Spec-side preference adjustment, in the claim's order of cases
(safest: +50 very_low, +25 low, -20 high, -40 very_high, else
unchanged; highest_yield: base*1.2 plus 20 when apy > 15; otherwise
unchanged). -/
def adjustSpec (preference risk_level : String) (apy base : ℚ) : ℚ :=
  if preference = "safest" then
    if risk_level = "very_low" then base + 50
    else if risk_level = "low" then base + 25
    else if risk_level = "high" then base - 20
    else if risk_level = "very_high" then base - 40
    else base
  else if preference = "highest_yield" then
    base * (1.2 : ℚ) + (if apy > 15 then 20 else 0)
  else base

/-- Spec-side totalScore: the adjusted base, rounded to 2 decimals. -/
def totalScoreSpec (pw : ℚ → ℚ) (preference risk_level : String) (apy tvl : ℚ)
    (protocol : String) : ℚ :=
  roundTo2 (adjustSpec preference risk_level apy (baseSpec pw risk_level apy tvl protocol))

end ScorerSpec

/-! ## Theorems -/

theorem foldl_append_acc {α : Type} (l acc : List α) :
    l.foldl (fun res a => res ++ [a]) acc = acc ++ l := by
  induction l generalizing acc with
  | nil => simp
  | cons a t ih => simp [List.foldl_cons, ih]

theorem foldl_skip_append {α : Type} (P : α → Prop) [DecidablePred P] (l acc : List α) :
    l.foldl (fun res a => if P a then res else res ++ [a]) acc
      = acc ++ l.filter (fun a => decide (¬ P a)) := by
  induction l generalizing acc with
  | nil => simp
  | cons a t ih =>
    by_cases h : P a <;> simp [List.foldl_cons, h, ih]

namespace DiscoveryLogic

theorem passesFilter_eq_qualifiesSpec (criteria : Criteria) (p : Pool) :
    passesFilter criteria p = qualifiesSpec criteria p := by
  rw [Bool.eq_iff_iff]
  rcases htvl : p.tvl with _ | tvl <;> rcases hapy : p.apy with _ | apy <;>
    simp [passesFilter, qualifiesSpec, htvl, hapy, List.any_eq_true, not_lt]
  rcases hmax : criteria.max_apy with _ | m <;>
    simp only [hmax, decide_eq_true_eq, decide_eq_false_iff_not, not_lt] <;>
    tauto

end DiscoveryLogic

/-- C4: the Candidate Filter returns exactly the input pools (in input
order) whose protocol contains, case-insensitively, a trusted-protocol
name, whose tvl ≥ min_tvl and apy ≥ min_apy (defaults 0), whose
apy ≤ max_apy when specified, and whose tvl ≥ 10,000,000 when the
preference is safest; pools with missing tvl or apy are rejected, and an
empty result is an ordinary value, not an error. -/
theorem claim_C4_candidate_filter (pools : List DiscoveryLogic.Pool) (criteria : Criteria) :
    DiscoveryLogic.filter_pools_by_criteria pools criteria =
      pools.filter (DiscoveryLogic.qualifiesSpec criteria) := by
  unfold DiscoveryLogic.filter_pools_by_criteria
  exact List.filter_congr
    fun p _ => DiscoveryLogic.passesFilter_eq_qualifiesSpec criteria p

/-- C10: the decision engine's own filtering stage is the identity: it
returns all input pools unchanged and in input order, for every
criteria. -/
theorem claim_C10_engine_filter_identity
    (pools : List DecisionAgent.DPool) (criteria : Criteria) :
    DecisionAgent.filter_pools_by_criteria pools criteria = pools := by
  unfold DecisionAgent.filter_pools_by_criteria
  simpa using foldl_append_acc pools []

/-- C6: the Safety Filter is the identity unless the preference is
safest, in which case it returns exactly the input pools whose risk
level is not very_high, in input order; the filtering decision reads
only the risk level, never contractVerified or auditLink (the pools
quantified over carry arbitrary such facts). -/
theorem claim_C6_safety_filter (pools : List DecisionAgent.DPool) (criteria : Criteria) :
    DecisionAgent.apply_safety_filters pools criteria =
      (if criteria.preference.getD "medium" = "safest"
       then pools.filter (fun p => decide (DecisionAgent.riskLevelOf p ≠ "very_high"))
       else pools) := by
  unfold DecisionAgent.apply_safety_filters
  by_cases h : criteria.preference.getD "medium" = "safest"
  · simp only [h, ne_eq, not_true_eq_false, if_false, if_true]
    rw [foldl_skip_append (fun p => DecisionAgent.riskLevelOf p = "very_high")]
    simp
  · simp [h]

theorem roundTo2_natCast (n : ℕ) : roundTo2 (n : ℚ) = n := by
  unfold roundTo2
  have h : ((n : ℚ) * 100) = ((n * 100 : ℕ) : ℚ) := by push_cast; ring
  rw [h, round_natCast]
  push_cast
  ring

namespace RiskAgent

theorem tvlBandSpec_cases (tvl : ℚ) : ∃ n : ℕ, tvlBandSpec tvl = n ∧ n ≤ 30 := by
  unfold tvlBandSpec
  split_ifs
  exacts [⟨30, by norm_num⟩, ⟨25, by norm_num⟩, ⟨20, by norm_num⟩,
    ⟨15, by norm_num⟩, ⟨10, by norm_num⟩, ⟨5, by norm_num⟩, ⟨0, by norm_num⟩]

theorem protocolReputationSpec_cases (protocol : String) :
    ∃ n : ℕ, protocolReputationSpec protocol = n ∧ n ≤ 35 := by
  unfold protocolReputationSpec
  split_ifs
  exacts [⟨35, by norm_num⟩, ⟨25, by norm_num⟩, ⟨10, by norm_num⟩]

theorem apySustainabilitySpec_cases (apy : ℚ) :
    ∃ n : ℕ, apySustainabilitySpec apy = n ∧ n ≤ 20 := by
  unfold apySustainabilitySpec
  split_ifs
  exacts [⟨20, by norm_num⟩, ⟨15, by norm_num⟩, ⟨10, by norm_num⟩,
    ⟨5, by norm_num⟩, ⟨0, by norm_num⟩]

theorem exploitAbsenceSpec_cases (e : Option String) :
    ∃ n : ℕ, exploitAbsenceSpec e = n ∧ n ≤ 15 := by
  unfold exploitAbsenceSpec
  split_ifs
  exacts [⟨15, by norm_num⟩, ⟨0, by norm_num⟩]

theorem calculate_risk_score_eq_bands (factors : RiskFactors) :
    calculate_risk_score factors =
      roundTo2 (tvlBandSpec factors.poolMetrics.tvl +
        protocolReputationSpec factors.poolMetrics.protocol +
        apySustainabilitySpec factors.poolMetrics.apy +
        exploitAbsenceSpec factors.exploitHistory) := by
  unfold calculate_risk_score
  simp only [zero_add]
  unfold tvlBandSpec protocolReputationSpec apySustainabilitySpec exploitAbsenceSpec
  rfl

end RiskAgent

/-- C5: the Risk Annotator's riskScore is the sum of the four
independent bands (TVL band, protocol reputation, APY sustainability,
exploit-history absence), lies in [0, 100], and the risk level is
banded from the score at thresholds 80 / 60 / 40 / 20. -/
theorem claim_C5_risk_score (factors : RiskAgent.RiskFactors) (s : ℚ) :
    RiskAgent.calculate_risk_score factors =
      RiskAgent.tvlBandSpec factors.poolMetrics.tvl +
      RiskAgent.protocolReputationSpec factors.poolMetrics.protocol +
      RiskAgent.apySustainabilitySpec factors.poolMetrics.apy +
      RiskAgent.exploitAbsenceSpec factors.exploitHistory
  ∧ 0 ≤ RiskAgent.calculate_risk_score factors
  ∧ RiskAgent.calculate_risk_score factors ≤ 100
  ∧ RiskAgent.get_risk_level s = RiskAgent.riskLevelBandSpec s := by
  obtain ⟨n1, e1, b1⟩ := RiskAgent.tvlBandSpec_cases factors.poolMetrics.tvl
  obtain ⟨n2, e2, b2⟩ := RiskAgent.protocolReputationSpec_cases factors.poolMetrics.protocol
  obtain ⟨n3, e3, b3⟩ := RiskAgent.apySustainabilitySpec_cases factors.poolMetrics.apy
  obtain ⟨n4, e4, b4⟩ := RiskAgent.exploitAbsenceSpec_cases factors.exploitHistory
  have hsum : RiskAgent.tvlBandSpec factors.poolMetrics.tvl +
      RiskAgent.protocolReputationSpec factors.poolMetrics.protocol +
      RiskAgent.apySustainabilitySpec factors.poolMetrics.apy +
      RiskAgent.exploitAbsenceSpec factors.exploitHistory
        = ((n1 + n2 + n3 + n4 : ℕ) : ℚ) := by
    rw [e1, e2, e3, e4]; push_cast; ring
  have hval : RiskAgent.calculate_risk_score factors = ((n1 + n2 + n3 + n4 : ℕ) : ℚ) := by
    rw [RiskAgent.calculate_risk_score_eq_bands, hsum, roundTo2_natCast]
  refine ⟨hval.trans hsum.symm, ?_, ?_, rfl⟩
  · rw [hval]; positivity
  · rw [hval]
    have hb : n1 + n2 + n3 + n4 ≤ 100 := by omega
    exact_mod_cast hb

theorem apyScore_code_eq (apy : ℚ) :
    (if apy ≤ 0 then (0 : ℚ) else min 40 (apy * 2)) = ScorerSpec.apyScoreSpec apy := by
  unfold ScorerSpec.apyScoreSpec
  split_ifs
  · rfl
  · congr 1
    ring

theorem riskScore_code_eq (lvl : String) :
    max 0 (30 - DecisionAgent.riskLevelNumeric lvl * (0.3 : ℚ)) =
      ScorerSpec.riskScoreSpec lvl := by
  unfold ScorerSpec.riskScoreSpec ScorerSpec.riskNumericSpec DecisionAgent.riskLevelNumeric
  congr 1
  ring

theorem liquidityScore_code_eq (pw : ℚ → ℚ) (tvl : ℚ) :
    (if tvl ≤ 0 then (0 : ℚ) else min 20 (pw tvl / 2)) =
      ScorerSpec.liquidityScoreSpec pw tvl := rfl

theorem protocolBonus_code_eq (protocol : String) :
    (if protocol = "Uniswap V3" then (10 : ℚ) else 5) =
      ScorerSpec.protocolBonusSpec protocol := rfl

theorem adjust_code_eq (pref lvl : String) (apy base : ℚ) :
    (if pref = "safest" then
      if lvl = "very_low" then base + 50
      else if lvl = "low" then base + 25
      else if lvl = "very_high" then base - 40
      else if lvl = "high" then base - 20
      else base
    else if pref = "highest_yield" then
      base * (1.2 : ℚ) + (if apy > 15 then (20 : ℚ) else 0)
    else base) = ScorerSpec.adjustSpec pref lvl apy base := by
  unfold ScorerSpec.adjustSpec
  split_ifs <;> simp_all

/-- C1: the Composite Scorer computes exactly the spec's four factors
(apyScore, riskScore via the risk-level table, liquidityScore,
protocolBonus) and the preference-adjusted total, rounded to two
decimals, for every pool, attached risk level and preference. -/
theorem claim_C1_composite_scorer (pw : ℚ → ℚ) (criteria : Criteria)
    (pool : DecisionAgent.DPool) :
    (DecisionAgent.score_pool pw criteria pool).scoreFactors =
      some { apyScore := ScorerSpec.apyScoreSpec pool.apy,
             riskScore := ScorerSpec.riskScoreSpec (DecisionAgent.riskLevelOf pool),
             liquidityScore := ScorerSpec.liquidityScoreSpec pw pool.tvl,
             protocolBonus := ScorerSpec.protocolBonusSpec pool.protocol }
  ∧ (DecisionAgent.score_pool pw criteria pool).totalScore =
      ScorerSpec.totalScoreSpec pw (criteria.preference.getD "medium")
        (DecisionAgent.riskLevelOf pool) pool.apy pool.tvl pool.protocol := by
  constructor
  · show some _ = some _
    rw [← apyScore_code_eq pool.apy, ← riskScore_code_eq (DecisionAgent.riskLevelOf pool),
      ← liquidityScore_code_eq pw pool.tvl, ← protocolBonus_code_eq pool.protocol]
  · show roundTo2 _ = roundTo2 _
    congr 1
    rw [adjust_code_eq]
    congr 1
    unfold ScorerSpec.baseSpec
    rw [← apyScore_code_eq pool.apy,
      ← riskScore_code_eq (DecisionAgent.riskLevelOf pool),
      ← liquidityScore_code_eq pw pool.tvl, ← protocolBonus_code_eq pool.protocol]

theorem riskLevelNumeric_nonneg (lvl : String) :
    0 ≤ DecisionAgent.riskLevelNumeric lvl := by
  unfold DecisionAgent.riskLevelNumeric
  split_ifs <;> norm_num

/-- C8: for every input pool — including negative or zero apy, zero or
negative tvl, and any risk level — the individual factors satisfy
0 ≤ apyScore ≤ 40, 0 ≤ riskScore ≤ 30 and 0 ≤ liquidityScore ≤ 20
(pw is the tenth-root model, nonnegative on positive arguments). -/
theorem claim_C8_factor_bounds (pw : ℚ → ℚ) (hpw : ∀ x : ℚ, 0 < x → 0 ≤ pw x)
    (criteria : Criteria) (pool : DecisionAgent.DPool) :
    ∃ sf : DecisionAgent.ScoreFactors,
      (DecisionAgent.score_pool pw criteria pool).scoreFactors = some sf ∧
      0 ≤ sf.apyScore ∧ sf.apyScore ≤ 40 ∧
      0 ≤ sf.riskScore ∧ sf.riskScore ≤ 30 ∧
      0 ≤ sf.liquidityScore ∧ sf.liquidityScore ≤ 20 := by
  refine ⟨_, rfl, ?_, ?_, ?_, ?_, ?_, ?_⟩
  · by_cases h : pool.apy ≤ 0 <;> simp only [h, if_true, if_false]
    · norm_num
    · exact le_min (by norm_num) (by push_neg at h; linarith)
  · by_cases h : pool.apy ≤ 0 <;> simp only [h, if_true, if_false]
    · norm_num
    · exact min_le_of_left_le le_rfl
  · exact le_max_left 0 _
  · refine max_le (by norm_num) ?_
    have h := riskLevelNumeric_nonneg (DecisionAgent.riskLevelOf pool)
    nlinarith
  · by_cases h : pool.tvl ≤ 0 <;> simp only [h, if_true, if_false]
    · norm_num
    · exact le_min (by norm_num)
        (div_nonneg (hpw pool.tvl (lt_of_not_le h)) (by norm_num))
  · by_cases h : pool.tvl ≤ 0 <;> simp only [h, if_true, if_false]
    · norm_num
    · exact min_le_of_left_le le_rfl

/-- Witness for C8 at a concrete degenerate pool (negative APY, zero
TVL) with the identity as pw. -/
theorem claim_C8_factor_bounds_witness :
    ∃ sf : DecisionAgent.ScoreFactors,
      (DecisionAgent.score_pool (fun x => x) {}
          { id := "pool-1", apy := -3, tvl := 0 }).scoreFactors = some sf ∧
      0 ≤ sf.apyScore ∧ sf.apyScore ≤ 40 ∧
      0 ≤ sf.riskScore ∧ sf.riskScore ≤ 30 ∧
      0 ≤ sf.liquidityScore ∧ sf.liquidityScore ≤ 20 :=
  claim_C8_factor_bounds (fun x => x) (fun _ hx => le_of_lt hx) {}
    { id := "pool-1", apy := -3, tvl := 0 }

theorem sortLe_trans (a b c : DecisionAgent.DPool) :
    DecisionAgent.sortLe a b → DecisionAgent.sortLe b c → DecisionAgent.sortLe a c := by
  simp only [DecisionAgent.sortLe, decide_eq_true_eq]
  exact fun hab hbc => le_trans hbc hab

theorem sortLe_total (a b : DecisionAgent.DPool) :
    DecisionAgent.sortLe a b || DecisionAgent.sortLe b a := by
  simp only [DecisionAgent.sortLe, Bool.or_eq_true, decide_eq_true_eq]
  exact le_total _ _

theorem enum_map_fst_add_one {α : Type} (m : List α) :
    m.enum.map (fun ip => ip.1 + 1) = List.range' 1 m.length := by
  have h1 : m.enum.map (fun ip : ℕ × α => ip.1 + 1)
      = (m.enum.map Prod.fst).map (fun i => i + 1) := by
    rw [List.map_map]
    rfl
  rw [h1, List.enum_map_fst, List.range'_eq_map_range]
  exact List.map_congr_left fun i _ => by omega

theorem assign_rankings_map_totalScore (m : List DecisionAgent.DPool) :
    (DecisionAgent.assign_rankings m).map DecisionAgent.DPool.totalScore
      = m.map DecisionAgent.DPool.totalScore := by
  unfold DecisionAgent.assign_rankings
  rw [List.map_map]
  have h : (DecisionAgent.DPool.totalScore ∘
      fun ip : ℕ × DecisionAgent.DPool => { ip.2 with ranking := ip.1 + 1 })
      = DecisionAgent.DPool.totalScore ∘ Prod.snd := rfl
  rw [h, ← List.map_map, List.enum_map_snd]

/-- C2: after the Ranker/Selector sorts a list of scored pools, the
assigned rankings are exactly 1..N in output order, the output is in
non-increasing totalScore order, and equal-score pools keep their input
relative order: the sorted list is the snd-projection of a permutation s
of the enumerated input that is pairwise strictly descending by
(totalScore, tie-broken by ascending original position). -/
theorem claim_C2_ranking (l : List DecisionAgent.DPool) :
    (DecisionAgent.rank_scored l).map DecisionAgent.DPool.ranking
        = List.range' 1 l.length
  ∧ ((DecisionAgent.rank_scored l).map DecisionAgent.DPool.totalScore).Pairwise
        (fun a b => b ≤ a)
  ∧ (∃ s : List (ℕ × DecisionAgent.DPool),
      DecisionAgent.sort_scored l = s.map Prod.snd
      ∧ s.Perm l.enum
      ∧ s.Pairwise (fun a b => b.2.totalScore < a.2.totalScore ∨
          (a.2.totalScore = b.2.totalScore ∧ a.1 < b.1)))
  ∧ DecisionAgent.rank_scored l
      = DecisionAgent.assign_rankings (DecisionAgent.sort_scored l) := by
  refine ⟨?_, ?_, ?_, rfl⟩
  · show (DecisionAgent.assign_rankings (DecisionAgent.sort_scored l)).map _ = _
    unfold DecisionAgent.assign_rankings
    rw [List.map_map]
    have h : (DecisionAgent.DPool.ranking ∘
        fun ip : ℕ × DecisionAgent.DPool => { ip.2 with ranking := ip.1 + 1 })
        = fun ip : ℕ × DecisionAgent.DPool => ip.1 + 1 := rfl
    rw [h, enum_map_fst_add_one]
    have hlen : (DecisionAgent.sort_scored l).length = l.length := by
      simp [DecisionAgent.sort_scored]
    rw [hlen]
  · show ((DecisionAgent.assign_rankings (DecisionAgent.sort_scored l)).map _).Pairwise _
    rw [assign_rankings_map_totalScore, List.pairwise_map]
    have hs : (List.mergeSort l DecisionAgent.sortLe).Pairwise
        (fun a b => DecisionAgent.sortLe a b = true) :=
      List.sorted_mergeSort sortLe_trans sortLe_total l
    exact hs.imp fun hab => by
      simpa [DecisionAgent.sortLe] using hab
  · refine ⟨(l.enum).mergeSort (List.enumLE DecisionAgent.sortLe), ?_, ?_, ?_⟩
    · exact (List.mergeSort_enum).symm
    · exact List.mergeSort_perm _ _
    · have hs : ((l.enum).mergeSort (List.enumLE DecisionAgent.sortLe)).Pairwise
          (fun a b => List.enumLE DecisionAgent.sortLe a b = true) :=
        List.sorted_mergeSort (List.enumLE_trans sortLe_trans)
          (List.enumLE_total sortLe_total) l.enum
      have hperm : ((l.enum).mergeSort (List.enumLE DecisionAgent.sortLe)).Perm l.enum :=
        List.mergeSort_perm _ _
      have hnd : (((l.enum).mergeSort (List.enumLE DecisionAgent.sortLe)).map Prod.fst).Nodup :=
        ((hperm.map Prod.fst).nodup_iff).mpr (List.nodup_enum_map_fst l)
      have hne : ((l.enum).mergeSort (List.enumLE DecisionAgent.sortLe)).Pairwise
          (fun a b => a.1 ≠ b.1) := List.pairwise_map.mp hnd
      refine (hs.and hne).imp ?_
      rintro a b ⟨hab, hfst⟩
      by_cases h1 : DecisionAgent.sortLe a.2 b.2 <;>
        by_cases h2 : DecisionAgent.sortLe b.2 a.2 <;>
        simp only [List.enumLE, h1, h2, if_true, if_false] at hab
      · simp only [DecisionAgent.sortLe, decide_eq_true_eq] at h1 h2
        exact Or.inr ⟨le_antisymm h2 h1, lt_of_le_of_ne (of_decide_eq_true hab) hfst⟩
      · simp only [DecisionAgent.sortLe, decide_eq_true_eq] at h1 h2
        exact Or.inl (lt_of_not_le h2)
      · exact absurd hab (by simp)
      · exact absurd hab (by simp)

/-- C7: the risk-application step attaches risk data to every input
pool; the attached value is an actual analysis entry whenever one exists
for the pool id (facts merely absent inside an entry never trigger the
default), and the neutral default is substituted exactly when the
analysis list carries no entry for that id (fetch-layer failure). -/
theorem claim_C7_risk_attachment (pools : List DecisionAgent.DPool)
    (risk : List DecisionAgent.RiskData) (id : String) :
    ((DecisionAgent.apply_risk_analysis pools risk).all fun p => p.riskData.isSome) = true
  ∧ DecisionAgent.apply_risk_analysis pools risk
      = pools.map (fun p => { p with riskData := some (DecisionAgent.riskFor risk p.id) })
  ∧ ((∃ r ∈ risk, r.poolId = some id) →
      ∃ r ∈ risk, r.poolId = some id ∧ DecisionAgent.riskFor risk id = r)
  ∧ ((∀ r ∈ risk, r.poolId ≠ some id) →
      DecisionAgent.riskFor risk id = DecisionAgent.defaultRiskData) := by
  refine ⟨?_, rfl, ?_, ?_⟩
  · simp [DecisionAgent.apply_risk_analysis, List.all_eq_true]
  · intro hex
    unfold DecisionAgent.riskFor
    rcases hf : (risk.reverse).find? (fun r => decide (r.poolId = some id)) with _ | r
    · rw [List.find?_eq_none] at hf
      obtain ⟨r, hr, hid⟩ := hex
      exact absurd hid (by simpa using hf r (List.mem_reverse.mpr hr))
    · have hmem := List.mem_of_find?_eq_some hf
      have hp := List.find?_some hf
      refine ⟨r, List.mem_reverse.mp hmem, by simpa using hp, ?_⟩
      rw [hf]
      rfl
  · intro hall
    unfold DecisionAgent.riskFor
    have hnone : (risk.reverse).find? (fun r => decide (r.poolId = some id)) = none := by
      rw [List.find?_eq_none]
      intro x hx
      simpa using hall x (List.mem_reverse.mp hx)
    rw [hnone]
    rfl

/-- Witness for C7: with a one-entry analysis list matching the queried
id, the attached assessment is that entry, not the neutral default. -/
theorem claim_C7_risk_attachment_witness :
    ∃ r ∈ [({ poolId := some "a", riskScore := 80, riskLevel := "low" } :
        DecisionAgent.RiskData)],
      r.poolId = some "a" ∧
      DecisionAgent.riskFor
        [{ poolId := some "a", riskScore := 80, riskLevel := "low" }] "a" = r :=
  (claim_C7_risk_attachment []
    [{ poolId := some "a", riskScore := 80, riskLevel := "low" }] "a").2.2.1
    ⟨{ poolId := some "a", riskScore := 80, riskLevel := "low" },
      List.mem_singleton.mpr rfl, rfl⟩

/-- C9: the Reasoning Trace Builder returns exactly 4 steps, numbered 1
to 4 in fixed order and each carrying its own timestamp: (1) the filter
summary (pool counts and applied criteria keys), (2) the scoring
summary (the four factor names and the top-3 id/score pairs), (3) the
selection summary (chosen id, protocol, score, apy and the pool's
riskScore key, 50 when absent), (4) the justification composing apy,
risk level, tvl and protocol into one narrative sentence. -/
theorem claim_C9_reasoning_trace (fmtNum fmtUsd : ℚ → String) (ts : ℕ → String)
    (criteria : Criteria) (pools : List DecisionAgent.DPool)
    (optimal : DecisionAgent.DPool) :
    (DecisionAgent.generate_reasoning_trace fmtNum fmtUsd ts criteria pools optimal).length = 4
  ∧ (DecisionAgent.generate_reasoning_trace fmtNum fmtUsd ts criteria pools optimal).map
      ReasoningStep.step = [1, 2, 3, 4]
  ∧ (DecisionAgent.generate_reasoning_trace fmtNum fmtUsd ts criteria pools optimal).map
      ReasoningStep.action
        = ["filter_pools", "score_pools", "select_optimal", "justify_selection"]
  ∧ (DecisionAgent.generate_reasoning_trace fmtNum fmtUsd ts criteria pools optimal).map
      ReasoningStep.timestamp = [ts 0, ts 1, ts 2, ts 3]
  ∧ (DecisionAgent.generate_reasoning_trace fmtNum fmtUsd ts criteria pools optimal).map
      ReasoningStep.output =
      [JVal.obj
        [("filteredPools", JVal.n pools.length),
         ("filtersApplied", JVal.arr (criteria.keysOf.map JVal.s))],
       JVal.obj
        [("scoringFactors", JVal.arr (DecisionAgent.scoreFactorKeys optimal)),
         ("topScores", JVal.arr ((pools.take 3).map fun p =>
           JVal.obj [("id", JVal.s p.id), ("score", JVal.q p.totalScore)]))],
       JVal.obj
        [("selectedPool", JVal.obj
          [("id", JVal.s optimal.id),
           ("protocol", JVal.s optimal.protocol),
           ("score", JVal.q optimal.totalScore),
           ("apy", JVal.q optimal.apy),
           ("riskScore", JVal.q (optimal.riskScore.getD 50))])],
       JVal.obj
        [("justification", JVal.obj
          [("apyAdvantage", JVal.q optimal.apy),
           ("riskAssessment", JVal.s (optimal.riskLevel.getD "medium")),
           ("liquidityStrength", JVal.q optimal.tvl),
           ("protocolReliability", JVal.s optimal.protocol)])]]
  ∧ (DecisionAgent.generate_reasoning_trace fmtNum fmtUsd ts criteria pools optimal).map
      ReasoningStep.reasoning =
      ["Filtered pools based on criteria: " ++ String.intercalate ", " criteria.keysOf,
       "Scored pools using APY (40%), Risk (30%), Liquidity (20%), and Protocol (10%) weights",
       "Selected " ++ optimal.id ++ " with highest composite score (" ++
         fmtNum optimal.totalScore ++ ")",
       "Pool selected due to " ++ fmtNum optimal.apy ++ "% APY, " ++
         optimal.riskLevel.getD "medium" ++ " risk, and strong liquidity of $" ++
         fmtUsd optimal.tvl] :=
  ⟨rfl, rfl, rfl, rfl, rfl, rfl⟩

/-- C3: with zero candidates after all filtering, the engine entry point
returns the structured failure response (success false, null optimal
pool, empty reasoning trace, the human-readable selector error, a
timestamp) instead of propagating the selector's error. -/
theorem claim_C3_no_candidates (pw : ℚ → ℚ) (fmtNum fmtUsd : ℚ → String)
    (ts : ℕ → String) (now : String) (criteria : Criteria)
    (pools : List DecisionAgent.DPool) (risk : List DecisionAgent.RiskData)
    (h : DecisionAgent.apply_safety_filters
          (DecisionAgent.apply_risk_analysis
            (DecisionAgent.filter_pools_by_criteria pools criteria) risk) criteria = []) :
    DecisionAgent.select_optimal_pool pw fmtNum fmtUsd ts now criteria pools risk =
      { success := false,
        error := some "No pools available for selection",
        optimalPool := none,
        allCandidates := none,
        reasoningTrace := [],
        criteria := none,
        timestamp := now } := by
  unfold DecisionAgent.select_optimal_pool
  dsimp only
  rw [h]
  simp [DecisionAgent.score_pools, DecisionAgent.rank_scored, DecisionAgent.sort_scored,
    DecisionAgent.assign_rankings, DecisionAgent.select_optimal_pool_from_scored]
  rfl

/-- Witness for C3 at the empty catalog. -/
theorem claim_C3_no_candidates_witness :
    DecisionAgent.select_optimal_pool (fun x => x) (fun _ => "f") (fun _ => "g")
        (fun _ => "t") "now" {} [] [] =
      { success := false,
        error := some "No pools available for selection",
        optimalPool := none,
        allCandidates := none,
        reasoningTrace := [],
        criteria := none,
        timestamp := "now" } :=
  claim_C3_no_candidates (fun x => x) (fun _ => "f") (fun _ => "g")
    (fun _ => "t") "now" {} [] [] rfl
